import Mathlib

/-
  Verification of the OAuth / upload / polling flow of the
  Youtube-remote-upload command-line utility.

  The JavaScript source is embedded shallowly:
  - JS objects reachable through optional chaining become structures with
    Option fields; optional chaining becomes Option.bind.
  - JS truthiness, the logical-or operator and positional argument binding
    are modelled explicitly where the source relies on them.
  - Network and user interactions are inputs to the embedded functions
    (the response a remote call would produce is passed in as data).
-/

set_option autoImplicit false

namespace YoutubeRemoteUpload

/- ===== JS value helpers ===== -/

/-- A JavaScript value as far as the embedded code needs one: a number, a
string, or undefined. -/
inductive JsVal
  | num (n : Int)
  | str (s : String)
  | undefined
deriving DecidableEq

/-- JS truthiness for the values of JsVal: 0, the empty string and
undefined are falsy. -/
def jsTruthy (v : JsVal) : Bool :=
  match v with
  | .num n => n != 0
  | .str s => s != ""
  | .undefined => false

/-- The JS logical-or operator a give-or-take short-circuit: the left operand when
truthy, otherwise the right operand. -/
def jsOr (a b : JsVal) : JsVal := if jsTruthy a then a else b

/-- JS truthiness of a string-or-null-or-undefined value (as produced by
URLSearchParams.get): null/undefined and the empty string are falsy. -/
def jsTruthyStr (s : Option String) : Bool :=
  match s with
  | none => false
  | some t => t != ""

/- ===== Secret Store (keytar) and the CLI entry file ===== -/

/-- The secret store persists values under a (service, account) key pair.
It is modelled as an association list where the newest write is found
first; keytar.setPassword overwrites, keytar.getPassword reads. -/
abbrev SecretStore := List ((String × String) × String)

/-- keytar.getPassword: look up a value by its (service, account) key. -/
def storeGet (s : SecretStore) (k : String × String) : Option String :=
  match s with
  | [] => none
  | e :: rest => if e.1 = k then some e.2 else storeGet rest k

/-- keytar.setPassword: persist a value under a (service, account) key. -/
def storeSet (s : SecretStore) (k : String × String) (v : String) : SecretStore :=
  (k, v) :: s

/-- The (service, account) key pair of the startup read in
youtube-remote-upload.js line 15:
keytar.getPassword with service 'YouTubeRemoteUpload', account 'refreshToken'. -/
def getPasswordKey : String × String := ("YouTubeRemoteUpload", "refreshToken")

/-- The (service, account) key pair of the post-initialization write in
youtube-remote-upload.js line 24:
keytar.setPassword with service 'youTubeRemoteUpload', account 'refreshToken'. -/
def setPasswordKey : String × String := ("youTubeRemoteUpload", "refreshToken")

/- ===== Session Manager: the YoutubeAPI class, init and authorize ===== -/

/-- The token pair returned by oauth2Client.getToken (ExchangingCode). -/
structure Tokens where
  refresh_token : String
  access_token : String
deriving DecidableEq

/-- What oauth2Client.setCredentials has been given: possibly a refresh
token and possibly an access token. -/
structure Credentials where
  refresh_token : Option String
  access_token : Option String
deriving DecidableEq

/-- The observable fields of the YoutubeAPI class instance.
The source has both a private field (spelled with a leading hash and
capital T: this.#youTubeAPI, declared line 21, written by init line 48,
read by uploadVideo's insert call line 79) and a plain property written by
authorize line 331 (this.youtubeApi, lowercase t). They are distinct
slots and are kept as the two distinct fields youTubeAPI and youtubeApi. -/
structure YoutubeAPIState where
  refreshToken : Option String
  credentials : Option Credentials
  youTubeAPI : Option Unit
  youtubeApi : Option Unit
deriving DecidableEq

/-- The state constructed by the class constructor for a given stored
refresh token (null on a first run). -/
def mkYoutubeAPI (storedRefreshToken : Option String) : YoutubeAPIState :=
  { refreshToken := storedRefreshToken
    credentials := none
    youTubeAPI := none
    youtubeApi := none }

/-- The tail of the authorize method (source lines 327-334), applied once
doOAuth has produced a token pair: setCredentials(tokens), store the
refresh token on the instance, and assign the youtube handle to the plain
property this.youtubeApi (not to the private field this.#youTubeAPI). -/
def authorize (s : YoutubeAPIState) (tokens : Tokens) : YoutubeAPIState :=
  { s with
    credentials := some ⟨some tokens.refresh_token, some tokens.access_token⟩
    refreshToken := some tokens.refresh_token
    youtubeApi := some () }

/-- The outcome of the silent refresh attempt oauth2Client.refreshAccessToken
performs against the remote auth endpoint. -/
inductive RefreshOutcome
  | accepted
  | rejected
  | networkError
deriving DecidableEq

/-- The isValid method (source lines 343-353): the promise resolves false
whenever refreshAccessToken reports any error, so a rejected token and a
network failure are treated identically; it resolves true only when the
silent refresh succeeds. -/
def isValid (r : RefreshOutcome) : Bool :=
  match r with
  | .accepted => true
  | .rejected => false
  | .networkError => false

/-- The init method (source lines 41-59). Besides the updated state it
returns how many times the Consent Flow (the authorize method) was
invoked during the call. -/
def init (s : YoutubeAPIState) (r : RefreshOutcome) (tokens : Tokens) :
    YoutubeAPIState × Nat :=
  match s.refreshToken with
  | some tok =>
      let s1 := { s with credentials := some ⟨some tok, none⟩ }
      if isValid r then
        ({ s1 with youTubeAPI := some () }, 0)
      else
        (authorize s1 tokens, 1)
  | none => (authorize s tokens, 1)

/-- uploadVideo's insert call (source line 79) reads the private field
this.#youTubeAPI; it can only be issued when that field was initialized. -/
def uploadVideoCanInsert (s : YoutubeAPIState) : Bool :=
  s.youTubeAPI.isSome

/- ===== Consent Flow: scope validation (doOAuth) ===== -/

/-- JS String.prototype.split with a one-character separator, on the
character list: splitting the empty list yields one empty piece, and each
separator occurrence starts a new piece. -/
def jsSplitChar (sep : Char) : List Char → List (List Char)
  | [] => [[]]
  | c :: cs =>
      let rest := jsSplitChar sep cs
      if c = sep then [] :: rest
      else
        match rest with
        | [] => [[c]]
        | w :: ws => (c :: w) :: ws

/-- JS scopeString.split(" ") as the source applies it to the tokeninfo
scope field (source line 316). -/
def jsSplitSpace (s : String) : List String :=
  (jsSplitChar ' ' s.toList).map (fun l => String.mk l)

/-- The two scopes the consent URL requests (source line 238). -/
def requiredScopes : List String :=
  ["https://www.googleapis.com/auth/youtube.upload",
   "https://www.googleapis.com/auth/youtube.force-ssl"]

/-- Outcome of doOAuth's scope-validation step: either the token pair is
returned, or redoConsent re-prompts the user and restarts the flow. -/
inductive ScopeCheckResult
  | returnTokens
  | redoConsent
deriving DecidableEq

/-- doOAuth's scope validation (source lines 312-322). The tokeninfo
response's scope field is the input; none models a fetch/parse failure,
which is caught, logged and then falls through to returning the tokens
(soft-fail). On a response, the field is split on spaces and the flow is
restarted exactly when fewer than 2 pieces result; the contents of the
pieces are not inspected. -/
def validateScopes (tokeninfoScope : Option String) : ScopeCheckResult :=
  match tokeninfoScope with
  | none => .returnTokens
  | some scopeField =>
      if (jsSplitSpace scopeField).length < 2 then .redoConsent
      else .returnTokens

/- ===== Consent Flow: the local callback listener (getAuthToken) ===== -/

/-- The state of the promise getAuthToken returns: resolve and reject only
take effect on a pending promise. -/
inductive PromiseState
  | pending
  | resolved (v : String)
  | rejected (e : String)
deriving DecidableEq

/-- resolve(v): settles a pending promise, no effect otherwise. -/
def resolveP (p : PromiseState) (v : String) : PromiseState :=
  match p with
  | .pending => .resolved v
  | s => s

/-- reject(e): settles a pending promise, no effect otherwise. -/
def rejectP (p : PromiseState) (e : String) : PromiseState :=
  match p with
  | .pending => .rejected e
  | s => s

/-- The observable state of one getAuthToken listener: the promise, whether
server.close() was called, and the response body sent to the browser. -/
structure CallbackState where
  promise : PromiseState
  serverClosed : Bool
  responseBody : Option String
deriving DecidableEq

/-- A request as the handler sees it: whether req.url contains
/oauth2callback, and the code and error query parameters
(URLSearchParams.get returns null when the parameter is absent). -/
structure CallbackRequest where
  urlHasCallbackPath : Bool
  code : Option String
  error : Option String
deriving DecidableEq

/-- res.end(body): the first call fixes the response body; a second call on
an already-ended response does not change what was sent. -/
def resEnd (st : CallbackState) (body : String) : CallbackState :=
  match st.responseBody with
  | some _ => st
  | none => { st with responseBody := some body }

/-- server.close(): idempotent. -/
def serverClose (st : CallbackState) : CallbackState :=
  { st with serverClosed := true }

/-- The request handler of getAuthToken (source lines 253-274) on one
request. Two independent truthiness tests run in order, first on code
(lines 260-264: respond, close, resolve) and then on error (lines 266-270:
respond, close, reject); neither is an else-branch of the other. -/
def handleCallback (st : CallbackState) (req : CallbackRequest) : CallbackState :=
  if req.urlHasCallbackPath then
    let st1 :=
      if jsTruthyStr req.code then
        let a := serverClose (resEnd st "Authentication successful! Please return to the console.")
        { a with promise := resolveP a.promise (req.code.getD "") }
      else st
    if jsTruthyStr req.error then
      let a := serverClose (resEnd st1 "Authentication canceled. Please return to the console.")
      { a with promise := rejectP a.promise (req.error.getD "") }
    else st1
  else st

/-- The listener's state before any request arrived. -/
def initialCallbackState : CallbackState :=
  { promise := .pending, serverClosed := false, responseBody := none }

/- ===== Processing Poller: the videos.list response shape ===== -/

/-- processingDetails.processingProgress of a video resource; timeLeftMs is
absent while the video has not started processing. -/
structure ProcessingProgress where
  timeLeftMs : Option JsVal
deriving DecidableEq

/-- processingDetails of a video resource. -/
structure ProcessingDetails where
  processingStatus : Option String
  processingProgress : Option ProcessingProgress
deriving DecidableEq

/-- snippet.thumbnails.high of a video resource. -/
structure Thumbnail where
  url : Option String
deriving DecidableEq

/-- snippet.thumbnails of a video resource. -/
structure Thumbnails where
  high : Option Thumbnail
deriving DecidableEq

/-- snippet of a video resource. -/
structure Snippet where
  thumbnails : Option Thumbnails
deriving DecidableEq

/-- One item of a videos.list response. -/
structure VideoResource where
  processingDetails : Option ProcessingDetails
  snippet : Option Snippet
deriving DecidableEq

/-- The data field of a videos.list response. -/
structure VideosListData where
  items : List VideoResource
deriving DecidableEq

/-- A videos.list response as the pollers consume it (called details in
the source). -/
structure VideosListResponse where
  data : Option VideosListData
deriving DecidableEq

/-- details?.data?.items[0]: the first listed video, if any (source lines
133 and 168). -/
def videoOf (details : VideosListResponse) : Option VideoResource :=
  (details.data).bind (fun d => d.items.head?)

/-- video?.processingDetails?.processingStatus as an optional string. -/
def processingStatusOf (video : Option VideoResource) : Option String :=
  (video.bind (fun v => v.processingDetails)).bind (fun p => p.processingStatus)

/-- video?.processingDetails?.processingProgress?.timeLeftMs as a JS value:
undefined when any link of the chain is absent. -/
def timeLeftMsOf (video : Option VideoResource) : JsVal :=
  match ((video.bind (fun v => v.processingDetails)).bind
      (fun p => p.processingProgress)).bind (fun pp => pp.timeLeftMs) with
  | some v => v
  | none => .undefined

/-- video?.snippet?.thumbnails?.high?.url as an optional string. -/
def thumbnailURLOf (video : Option VideoResource) : Option String :=
  (((video.bind (fun v => v.snippet)).bind (fun s => s.thumbnails)).bind
    (fun t => t.high)).bind (fun h => h.url)

/- ===== Processing Poller: the video-status loop ===== -/

/-- JS positional parameter binding: a call binds each declared parameter
name to the argument in the same position; missing arguments bind to
undefined and extra arguments are dropped. -/
def bindParams (params : List String) (args : List JsVal) (p : String) : JsVal :=
  match params, args with
  | [], _ => .undefined
  | _ :: _, [] => .undefined
  | q :: qs, a :: rest => if q = p then a else bindParams qs rest p

/-- The declared parameter list of the inner function checkVideoProcessing
(source line 158): a single parameter named timeLeftMs. -/
def checkVideoProcessingParams : List String := ["timeLeftMs"]

/-- The argument list of the recursive call on source line 179:
checkVideoProcessing(id, newTimeLeftMs) — two arguments, the video id
first. -/
def checkVideoProcessingRecArgs (id : JsVal) (newTimeLeftMs : JsVal) : List JsVal :=
  [id, newTimeLeftMs]

/-- The outcome of one iteration of the video-status loop: either the loop
returns, or it recurses and the next frame's timeLeftMs binding is
carried along. -/
inductive VideoPollStep
  | done
  | next (timeLeftMs : JsVal)
deriving DecidableEq

/-- One iteration of checkVideoProcessing (source lines 158-181) after the
wait: the videos.list response is the input. The loop returns when the
first item's processingStatus is the string succeeded; otherwise it
computes newTimeLeftMs with the JS or-operator and recurses, and the value
the recursive frame binds to its timeLeftMs parameter is determined by
the positional binding of the call's arguments to the declared parameter
list. The wait before the query is setTimeout(resolve, timeLeftMs), i.e.
the current timeLeftMs binding. -/
def checkVideoProcessingStep (id : JsVal) (timeLeftMs : JsVal)
    (details : VideosListResponse) : VideoPollStep :=
  let video := videoOf details
  if processingStatusOf video = some "succeeded" then
    .done
  else
    let newTimeLeftMs := jsOr (timeLeftMsOf video) timeLeftMs
    .next (bindParams checkVideoProcessingParams
      (checkVideoProcessingRecArgs id newTimeLeftMs) "timeLeftMs")

/-- Whether a videos.list response reports processingStatus succeeded for
its first item. -/
def respSucceeded (r : VideosListResponse) : Bool :=
  processingStatusOf (videoOf r) = some "succeeded"

/-- Running the video-status loop against a finite prefix of the stream of
videos.list responses, one response per iteration: the index of the
iteration on which the loop returned, or none if the loop was still
running after consuming the whole prefix. -/
def checkVideoProcessingRun (id : JsVal) (timeLeftMs : JsVal) :
    List VideosListResponse → Option Nat
  | [] => none
  | r :: rs =>
      match checkVideoProcessingStep id timeLeftMs r with
      | .done => some 0
      | .next t => (checkVideoProcessingRun id t rs).map (· + 1)

/-- processing's default wait before the first status query (source line
119): 3000ms. -/
def defaultTimeLeftMs : JsVal := .num 3000

/- ===== Processing Poller: the thumbnail loop ===== -/

/-- The thumbnail loop's fixed wait before each query (source line 126):
5000ms. -/
def thumbnailWaitMs : Nat := 5000

/-- The outcome of the plain GET against the thumbnail URL: a response
with response.ok true (2xx), a response with response.ok false, or a
transport error thrown by fetch. -/
inductive FetchResult
  | ok
  | notOk
  | transportError
deriving DecidableEq

/-- The outcome of one iteration of checkThumbnailProcessing: return
because the URL is absent, return because the GET succeeded, or recurse. -/
inductive ThumbStep
  | endSilent
  | endSuccess
  | retry
deriving DecidableEq

/-- One iteration of checkThumbnailProcessing (source lines 125-151) after
the fixed wait: the videos.list response and, when a GET is issued, its
outcome are the inputs. When the thumbnail URL is truthy, a 2xx GET
returns, and a non-2xx response or a thrown transport error recurses; when
the URL is absent the function falls past the if and returns without
recursing. -/
def checkThumbnailProcessingStep (details : VideosListResponse)
    (fetchResult : FetchResult) : ThumbStep :=
  let video := videoOf details
  let thumbnailURL := thumbnailURLOf video
  if jsTruthyStr thumbnailURL then
    match fetchResult with
    | .ok => .endSuccess
    | .notOk => .retry
    | .transportError => .retry
  else
    .endSilent

/-- Running the thumbnail loop against a finite prefix of the stream of
(videos.list response, GET outcome) pairs, one pair per iteration: the
iteration index on which the loop returned together with how it returned,
or none if it was still retrying after the whole prefix. -/
def checkThumbnailProcessingRun :
    List (VideosListResponse × FetchResult) → Option (Nat × ThumbStep)
  | [] => none
  | (r, f) :: rest =>
      match checkThumbnailProcessingStep r f with
      | .retry => (checkThumbnailProcessingRun rest).map (fun p => (p.1 + 1, p.2))
      | .endSilent => some (0, .endSilent)
      | .endSuccess => some (0, .endSuccess)

/-- Written from the spec's words for the video-status loop: the loop ends
exactly at the first response reporting status succeeded, whatever the
iteration count, and does not end while no response reports succeeded. The
video-status loop is compared against this function. -/
def firstSucceededIdx : List VideosListResponse → Option Nat
  | [] => none
  | r :: rs =>
      if respSucceeded r then some 0 else (firstSucceededIdx rs).map (· + 1)

/-- Written from the spec's words for the thumbnail loop: the loop ends at
the first iteration that is not a retry, reporting how it ended; every
iteration before it was a retry. The thumbnail loop is compared against
this function. -/
def firstThumbEndIdx : List (VideosListResponse × FetchResult) → Option (Nat × ThumbStep)
  | [] => none
  | (r, f) :: rest =>
      if checkThumbnailProcessingStep r f = .retry then
        (firstThumbEndIdx rest).map (fun p => (p.1 + 1, p.2))
      else
        some (0, checkThumbnailProcessingStep r f)

/- ===== Upload Orchestrator: the progress computation ===== -/

/-- A JS number: NaN, the two infinities, or a finite value (the values
the progress computation manipulates are exact in the rationals). -/
inductive JsNum
  | nan
  | inf
  | negInf
  | val (q : ℚ)
deriving DecidableEq

/-- JS division, including the division-by-zero cases: 0/0 is NaN and
x/0 for nonzero finite x is a signed infinity. -/
def jsDiv (a b : JsNum) : JsNum :=
  match a, b with
  | .nan, _ => .nan
  | _, .nan => .nan
  | .inf, .inf => .nan
  | .inf, .negInf => .nan
  | .negInf, .inf => .nan
  | .negInf, .negInf => .nan
  | .inf, .val y => if y < 0 then .negInf else .inf
  | .negInf, .val y => if y < 0 then .inf else .negInf
  | .val _, .inf => .val 0
  | .val _, .negInf => .val 0
  | .val x, .val y =>
      if y = 0 then
        if x = 0 then .nan
        else if 0 < x then .inf
        else .negInf
      else .val (x / y)

/-- JS multiplication on the same value space. -/
def jsMul (a b : JsNum) : JsNum :=
  match a, b with
  | .nan, _ => .nan
  | _, .nan => .nan
  | .inf, .inf => .inf
  | .inf, .negInf => .negInf
  | .negInf, .inf => .negInf
  | .negInf, .negInf => .inf
  | .inf, .val y => if y = 0 then .nan else if 0 < y then .inf else .negInf
  | .val x, .inf => if x = 0 then .nan else if 0 < x then .inf else .negInf
  | .negInf, .val y => if y = 0 then .nan else if 0 < y then .negInf else .inf
  | .val x, .negInf => if x = 0 then .nan else if 0 < x then .negInf else .inf
  | .val x, .val y => .val (x * y)

/-- Math.round: NaN and the infinities pass through; a finite value is
rounded half-up. -/
def jsRound (a : JsNum) : JsNum :=
  match a with
  | .val q => .val ((Rat.floor (q + 1/2) : Int) : ℚ)
  | x => x

/-- How a JS number renders in a template literal. -/
def jsNumToString (a : JsNum) : String :=
  match a with
  | .nan => "NaN"
  | .inf => "Infinity"
  | .negInf => "-Infinity"
  | .val q => toString q

/-- The progress value of the onUploadProgress handler (source line 93):
Math.round((evt.bytesRead / fileSize) * 100). -/
def onUploadProgress (fileSize bytesRead : JsNum) : JsNum :=
  jsRound (jsMul (jsDiv bytesRead fileSize) (.val 100))

/-- The console line the handler writes (source lines 97-101; the two
branches of the if write the identical template literal). -/
def progressLine (fileSize bytesRead : JsNum) : String :=
  jsNumToString (onUploadProgress fileSize bytesRead) ++ "% complete"

/- ===== Upload Orchestrator: the metadata merge ===== -/

/-- One top-level metadata section (snippet or status) as a flat JS
object: keys paired with their values, earliest entry found first. -/
abbrev SectionObj := List (String × String)

/-- Property lookup on a flat JS object. -/
def sectGet : SectionObj → String → Option String
  | [], _ => none
  | p :: rest, k => if p.1 = k then some p.2 else sectGet rest k

/-- The JS object spread of base then override, as a key-value map: for
every key, the override's value when the override has the key, the base's
value otherwise. -/
def jsSpread (base override : SectionObj) : SectionObj :=
  base.filter (fun p => (sectGet override p.1).isNone) ++ override

/-- The two top-level sections a details object carries. -/
structure VideoDetails where
  snippet : SectionObj
  status : SectionObj

/-- createDetailsObject (source lines 193-200): spread the defaults
document's snippet under the caller's snippet and the defaults document's
status under the caller's status — one spread per top-level section,
nothing deeper. The defaults document (read from uploadDefaults.json) is a
parameter. -/
def createDetailsObject (defaults userDefined : VideoDetails) : VideoDetails :=
  { snippet := jsSpread defaults.snippet userDefined.snippet
    status := jsSpread defaults.status userDefined.status }

end YoutubeRemoteUpload

namespace YoutubeRemoteUpload

/-- C1: the round-trip fails. The service string of the startup read
('YouTubeRemoteUpload') differs from the service string of the
post-initialization write ('youTubeRemoteUpload'), so on a first run the
token persisted by storeSet under setPasswordKey is not found by the next
start's storeGet under getPasswordKey. -/
theorem c1_refresh_token_roundtrip_broken :
    getPasswordKey ≠ setPasswordKey ∧
    storeGet (storeSet ([] : SecretStore) setPasswordKey "tok123") getPasswordKey = none := by
  constructor
  · decide
  · decide

/-- C2: fails on the fresh Consent Flow path. After init on the
silent-refresh path the private handle read by uploadVideo is initialized,
but after init on the Consent Flow path (no stored token, so authorize
runs) the private field youTubeAPI is still none — authorize assigned the
plain property youtubeApi instead — so uploadVideo cannot issue its
insert call. -/
theorem c2_consent_path_leaves_upload_handle_uninitialized :
    uploadVideoCanInsert (init (mkYoutubeAPI (some "stored")) .accepted ⟨"rt", "at"⟩).1 = true ∧
    uploadVideoCanInsert (init (mkYoutubeAPI none) .accepted ⟨"rt", "at"⟩).1 = false ∧
    (init (mkYoutubeAPI none) .accepted ⟨"rt", "at"⟩).1.youtubeApi = some () := by
  exact ⟨rfl, rfl, rfl⟩

/-- C9: Session Manager branching. For every stored token the remote
silent-refresh accepts, init does not invoke the Consent Flow; for every
stored token the remote rejects, for a network failure during the silent
check, and for the absent-token case, init invokes the Consent Flow
(authorize) exactly once per call. -/
theorem c9_session_manager_branching (tok : String) (t : Tokens) (r : RefreshOutcome) :
    (init (mkYoutubeAPI (some tok)) .accepted t).2 = 0 ∧
    (init (mkYoutubeAPI (some tok)) .rejected t).2 = 1 ∧
    (init (mkYoutubeAPI (some tok)) .networkError t).2 = 1 ∧
    (init (mkYoutubeAPI none) r t).2 = 1 := by
  refine ⟨rfl, rfl, rfl, ?_⟩
  cases r <;> rfl

/-- C3 counterexample: a granted-scope set of two strings containing
neither required scope passes validation — the flow returns the tokens
without re-prompting — refuting the claim that the flow restarts whenever
the granted set lacks either required scope string. -/
theorem c3_counterexample_two_wrong_scopes_pass :
    validateScopes (some "scopeA scopeB") = .returnTokens ∧
    (jsSplitSpace "scopeA scopeB").contains "https://www.googleapis.com/auth/youtube.upload" = false ∧
    (jsSplitSpace "scopeA scopeB").contains "https://www.googleapis.com/auth/youtube.force-ssl" = false := by
  refine ⟨by decide, by decide, by decide⟩

/-- C3 amended: scope validation re-prompts (restarts the flow) exactly
when the tokeninfo scope field splits into fewer than two space-separated
entries; which scope strings the entries are is never inspected, so any
set of two or more granted scopes is accepted. -/
theorem c3_scope_validation_counts_only (s : String) :
    validateScopes (some s) = .redoConsent ↔ (jsSplitSpace s).length < 2 := by
  simp only [validateScopes]
  split_ifs with h <;> simp [h]

/-- C4: fails. At a poll iteration with current interval 3000 whose
response reports a still-processing video with server estimate timeLeftMs
7000, the or-expression computes 7000, but the recursive call
checkVideoProcessing(id, newTimeLeftMs) binds the single declared
parameter timeLeftMs positionally to its first argument, the video id: the
next iteration's wait value is the string abc123, not 7000 and not the
previous interval. -/
theorem c4_next_wait_is_video_id :
    checkVideoProcessingStep (.str "abc123") (.num 3000)
        ⟨some ⟨[⟨some ⟨some "processing", some ⟨some (.num 7000)⟩⟩, none⟩]⟩⟩
      = .next (.str "abc123") ∧
    jsOr (timeLeftMsOf (videoOf
        ⟨some ⟨[⟨some ⟨some "processing", some ⟨some (.num 7000)⟩⟩, none⟩]⟩⟩)) (.num 3000)
      = .num 7000 ∧
    JsVal.str "abc123" ≠ .num 7000 := by
  refine ⟨by decide, by decide, by decide⟩

/-- C5: fails. For a chunk event on a 0-byte file (bytesRead and fileSize
both 0) the progress computation divides zero by zero: the progress value
is NaN, not the number 100, and the console line reads NaN percent
complete — no guard or short-circuit exists in the handler. -/
theorem c5_zero_byte_progress_is_nan :
    onUploadProgress (.val 0) (.val 0) = .nan ∧
    onUploadProgress (.val 0) (.val 0) ≠ .val 100 ∧
    progressLine (.val 0) (.val 0) = "NaN% complete" := by
  refine ⟨by decide, by decide, rfl⟩

/-- C6: the video-status loop returns exactly at the first response whose
processingStatus is succeeded — for every response prefix and every
current interval value, the run of checkVideoProcessing equals the
first-succeeded-index function written from the spec; in particular the
loop is still running after any prefix with no succeeded response. -/
theorem c6_video_loop_ends_at_first_succeeded (id t : JsVal)
    (rs : List VideosListResponse) :
    checkVideoProcessingRun id t rs = firstSucceededIdx rs := by
  induction rs generalizing t with
  | nil => rfl
  | cons r rs ih =>
      by_cases h : processingStatusOf (videoOf r) = some "succeeded"
      · simp [checkVideoProcessingRun, checkVideoProcessingStep, firstSucceededIdx,
          respSucceeded, h]
      · simp [checkVideoProcessingRun, checkVideoProcessingStep, firstSucceededIdx,
          respSucceeded, h, ih]

/-- C7: the thumbnail loop waits a fixed 5000ms per iteration; with a
present (truthy) thumbnail URL a non-2xx response and a transport error
each cause a retry and a 2xx response ends the loop; with the URL absent
the iteration ends the loop silently; and a run of the loop equals the
first-non-retry function written from the spec: it ends exactly at the
first non-retry iteration, with every earlier iteration a retry. -/
theorem c7_thumbnail_loop_behaviour :
    thumbnailWaitMs = 5000 ∧
    (∀ r f, thumbnailURLOf (videoOf r) = none →
      checkThumbnailProcessingStep r f = .endSilent) ∧
    (∀ r u, thumbnailURLOf (videoOf r) = some u → u ≠ "" →
      checkThumbnailProcessingStep r .notOk = .retry ∧
      checkThumbnailProcessingStep r .transportError = .retry ∧
      checkThumbnailProcessingStep r .ok = .endSuccess) ∧
    (∀ ps, checkThumbnailProcessingRun ps = firstThumbEndIdx ps) := by
  refine ⟨rfl, ?_, ?_, ?_⟩
  · intro r f h
    simp [checkThumbnailProcessingStep, h, jsTruthyStr]
  · intro r u hu hne
    refine ⟨?_, ?_, ?_⟩ <;> simp [checkThumbnailProcessingStep, hu, jsTruthyStr, hne]
  · intro ps
    induction ps with
    | nil => rfl
    | cons p rest ih =>
        obtain ⟨r, f⟩ := p
        rcases hs : checkThumbnailProcessingStep r f with _ | _ | _ <;>
          simp [checkThumbnailProcessingRun, firstThumbEndIdx, hs, ih]

/-- C7 witness: the per-iteration facts at a concrete response carrying a
thumbnail URL: a non-2xx GET retries. -/
theorem c7_thumbnail_loop_behaviour_witness :
    thumbnailURLOf (videoOf ⟨some ⟨[⟨none, some ⟨some ⟨some ⟨some "http://img"⟩⟩⟩⟩]⟩⟩)
      = some "http://img" ∧
    ("http://img" : String) ≠ "" ∧
    checkThumbnailProcessingStep ⟨some ⟨[⟨none, some ⟨some ⟨some ⟨some "http://img"⟩⟩⟩⟩]⟩⟩ .notOk
      = .retry :=
  ⟨rfl, by decide,
    (c7_thumbnail_loop_behaviour.2.2.1 ⟨some ⟨[⟨none, some ⟨some ⟨some ⟨some "http://img"⟩⟩⟩⟩]⟩⟩
      "http://img" rfl (by decide)).1⟩

/-- Lookup through a spread, override side: a key bound in the override
keeps the override's value. -/
theorem sectGet_jsSpread_override (b o : SectionObj) (k v : String)
    (h : sectGet o k = some v) : sectGet (jsSpread b o) k = some v := by
  induction b with
  | nil => simpa [jsSpread] using h
  | cons p b ih =>
      simp only [jsSpread] at ih
      simp only [jsSpread, List.filter_cons]
      by_cases hf : (sectGet o p.1).isNone = true
      · have hpk : p.1 ≠ k := by
          intro e
          rw [e, h] at hf
          simp at hf
        simp [hf, sectGet, hpk, ih]
      · simp [hf, ih]

/-- Lookup through a spread, base side: a key not bound in the override
keeps the base's value. -/
theorem sectGet_jsSpread_default (b o : SectionObj) (k : String)
    (h : sectGet o k = none) : sectGet (jsSpread b o) k = sectGet b k := by
  induction b with
  | nil => simpa [jsSpread, sectGet] using h
  | cons p b ih =>
      simp only [jsSpread] at ih
      simp only [jsSpread, List.filter_cons]
      by_cases hpk : p.1 = k
      · have hf : (sectGet o p.1).isNone = true := by rw [hpk, h]; rfl
        simp [hf, sectGet, hpk, h]
      · by_cases hf : (sectGet o p.1).isNone = true
        · simp [hf, sectGet, hpk, ih]
        · simp [hf, sectGet, hpk, ih]

/-- Every key of an entry of a section object is found by lookup. -/
theorem sectGet_isSome_of_mem (o : SectionObj) (q : String × String) (hq : q ∈ o) :
    (sectGet o q.1).isSome = true := by
  induction o with
  | nil => cases hq
  | cons p rest ih =>
      rcases List.mem_cons.1 hq with rfl | hq
      · simp [sectGet]
      · by_cases hpk : p.1 = q.1 <;> simp [sectGet, hpk, ih hq]

/-- Spreading the same override twice changes nothing. -/
theorem jsSpread_idem (b o : SectionObj) :
    jsSpread (jsSpread b o) o = jsSpread b o := by
  have ho : o.filter (fun p => (sectGet o p.1).isNone) = [] := by
    apply List.filter_eq_nil_iff.2
    intro q hq
    have h1 := sectGet_isSome_of_mem o q hq
    simp_all [Option.isSome_iff_ne_none]
  have hb : (b.filter (fun p => (sectGet o p.1).isNone)).filter
      (fun p => (sectGet o p.1).isNone) = b.filter (fun p => (sectGet o p.1).isNone) := by
    rw [List.filter_filter]
    apply List.filter_congr
    intro q hq
    simp [Bool.and_self]
  simp only [jsSpread, List.filter_append, ho, hb, List.append_nil]

/-- C8: the metadata merge is a shallow per-top-level-section merge:
caller-supplied fields win over defaults-document fields of the same key,
unoverridden default fields are preserved (in both the snippet and the
status sections), merging the same caller object again is the identity
(idempotence), and the spec's concrete example merges to
title A with description d. -/
theorem c8_metadata_merge :
    (∀ d u : VideoDetails, ∀ k v : String, sectGet u.snippet k = some v →
      sectGet (createDetailsObject d u).snippet k = some v) ∧
    (∀ d u : VideoDetails, ∀ k : String, sectGet u.snippet k = none →
      sectGet (createDetailsObject d u).snippet k = sectGet d.snippet k) ∧
    (∀ d u : VideoDetails, ∀ k v : String, sectGet u.status k = some v →
      sectGet (createDetailsObject d u).status k = some v) ∧
    (∀ d u : VideoDetails, ∀ k : String, sectGet u.status k = none →
      sectGet (createDetailsObject d u).status k = sectGet d.status k) ∧
    (∀ d u : VideoDetails,
      createDetailsObject (createDetailsObject d u) u = createDetailsObject d u) ∧
    (sectGet (createDetailsObject ⟨[("title", "default"), ("description", "d")], []⟩
        ⟨[("title", "A")], []⟩).snippet "title" = some "A" ∧
     sectGet (createDetailsObject ⟨[("title", "default"), ("description", "d")], []⟩
        ⟨[("title", "A")], []⟩).snippet "description" = some "d") := by
  refine ⟨?_, ?_, ?_, ?_, ?_, by decide, by decide⟩
  · intro d u k v h
    exact sectGet_jsSpread_override d.snippet u.snippet k v h
  · intro d u k h
    exact sectGet_jsSpread_default d.snippet u.snippet k h
  · intro d u k v h
    exact sectGet_jsSpread_override d.status u.status k v h
  · intro d u k h
    exact sectGet_jsSpread_default d.status u.status k h
  · intro d u
    simp only [createDetailsObject, jsSpread_idem]

/-- C8 witness: the override-wins component at the spec's concrete
example: the caller's title A wins over the default title. -/
theorem c8_metadata_merge_witness :
    sectGet ([("title", "A")] : SectionObj) "title" = some "A" ∧
    sectGet (createDetailsObject ⟨[("title", "default"), ("description", "d")], []⟩
        ⟨[("title", "A")], []⟩).snippet "title" = some "A" :=
  ⟨by decide,
    c8_metadata_merge.1 ⟨[("title", "default"), ("description", "d")], []⟩
      ⟨[("title", "A")], []⟩ "title" "A" (by decide)⟩

/-- C10 counterexample: a first matching request whose code parameter is
present but empty (so non-null) and whose error parameter is non-null is
handled by the error branch, not the code branch: the promise is rejected,
not resolved with the code. -/
theorem c10_counterexample_empty_code :
    (handleCallback initialCallbackState ⟨true, some "", some "denied"⟩).promise
      = .rejected "denied" ∧
    (handleCallback initialCallbackState ⟨true, some "", some "denied"⟩).promise
      ≠ .resolved "" := by
  refine ⟨by decide, by decide⟩

/-- C10 amended: if the first matching request carries a truthy (non-null
and non-empty) code parameter, then whatever the error parameter holds the
code branch takes effect: the promise resolves with the code (the later
reject has no effect on the settled promise), the server is closed, and
the success page is the response body — a single outcome even on the
ambiguous input carrying both parameters. -/
theorem c10_code_branch_wins (c : String) (hc : c ≠ "") (e : Option String) :
    (handleCallback initialCallbackState ⟨true, some c, e⟩).promise = .resolved c ∧
    (handleCallback initialCallbackState ⟨true, some c, e⟩).serverClosed = true ∧
    (handleCallback initialCallbackState ⟨true, some c, e⟩).responseBody
      = some "Authentication successful! Please return to the console." := by
  cases e with
  | none =>
      simp [handleCallback, jsTruthyStr, hc, initialCallbackState, resEnd, serverClose,
        resolveP]
  | some s =>
      by_cases hs : s = "" <;>
        simp [handleCallback, jsTruthyStr, hc, hs, initialCallbackState, resEnd, serverClose,
          resolveP, rejectP]

/-- C10 witness: the amended theorem at the concrete ambiguous request with
code abc and error denied. -/
theorem c10_code_branch_wins_witness :
    ("abc" : String) ≠ "" ∧
    (handleCallback initialCallbackState ⟨true, some "abc", some "denied"⟩).promise
      = .resolved "abc" :=
  ⟨by decide, (c10_code_branch_wins "abc" (by decide) (some "denied")).1⟩

end YoutubeRemoteUpload
